import Mathlib

/-!
Verification of the wordpress3d developer-network visualization components
(src/network-viz-directed.tsx, src/components/NetworkVisualization.tsx).
The components are thin orchestration over d3; where their behaviour is
decided by the d3 calls they make (d3.scaleLinear, d3.forceLink resolution,
the drag/tick handlers), those library primitives are embedded here with
their actual d3 semantics, and the component-local logic (CSV parsing,
marker buckets, country lookup, load gating, path geometry) is translated
directly from the TypeScript source.

Numbers are modelled as rationals (positions as reals where the code takes
a square root); JavaScript float rounding is out of scope, the properties
checked are the algebraic ones the spec states.
-/

/-- Linear interpolation between two range endpoints, as in d3-interpolate's
interpolateNumber: a * (1 - t) + b * t. -/
def interpolateNumber (a b t : ℚ) : ℚ := a * (1 - t) + b * t

/-- Two-point linear scale, as built by the source's
d3.scaleLinear().domain([d0, d1]).range([r0, r1]) calls
(network-viz-directed.tsx lines 74-80, NetworkVisualization.tsx lines
128-134).  Follows d3-scale's continuous transform: the normalizer
(x - d0) / (d1 - d0) degenerates to the constant 1/2 when d1 - d0 = 0
(d3-scale normalize returns constant(0.5) when b -= a is falsy), and the
result is fed to interpolateNumber over the range.  No clamping: inputs
outside the domain extrapolate. -/
def scaleLinear (d0 d1 r0 r1 x : ℚ) : ℚ :=
  if d1 - d0 = 0 then interpolateNumber r0 r1 (1 / 2)
  else interpolateNumber r0 r1 ((x - d0) / (d1 - d0))

/-- Developer node record as parsed from the node CSV
(interface Developer in NetworkVisualization.tsx lines 9-15). -/
structure Developer where
  developer_id : String
  country : String
  betweenness : ℚ
  in_degree : ℕ
  out_degree : ℕ
deriving DecidableEq, Repr

/-- Raw edge record as parsed from the edge CSV (interface Edge,
NetworkVisualization.tsx lines 17-23, country columns omitted as unused). -/
structure RawLink where
  source : String
  target : String
  weight : ℚ
deriving DecidableEq, Repr

/-- Maximum of a list of numbers, as computed by d3.max over an accessor;
none on the empty list (d3.max returns undefined there). -/
def d3Max (xs : List ℚ) : Option ℚ := xs.max?

/-- Input-domain maximum of the radius scale: d3.max(nodes, d => d.betweenness) || 0
(NetworkVisualization.tsx line 129). -/
def betweennessDomainMax (nodes : List Developer) : ℚ :=
  (d3Max (nodes.map (fun d => d.betweenness))).getD 0

/-- Radius-from-betweenness scale with range [8, 25]
(betweennessScale in both components). -/
def betweennessScaleOf (nodes : List Developer) (b : ℚ) : ℚ :=
  scaleLinear 0 (betweennessDomainMax nodes) 8 25 b

/-- Width-from-weight scale with domain [1, max weight] and range [1, 4]
(edgeWeightScale in both components). -/
def edgeWeightScaleOf (links : List RawLink) (w : ℚ) : ℚ :=
  scaleLinear 1 ((d3Max (links.map (fun l => l.weight))).getD 1) 1 4 w

/-- Demo node a with betweenness 0, from the spec's concrete example. -/
def devA : Developer := ⟨"a", "Unknown", 0, 0, 0⟩

/-- Demo node b with betweenness 10, from the spec's concrete example. -/
def devB : Developer := ⟨"b", "Unknown", 10, 0, 0⟩

lemma scaleLinear_left {d0 d1 : ℚ} (r0 r1 : ℚ) (h : d1 - d0 ≠ 0) :
    scaleLinear d0 d1 r0 r1 d0 = r0 := by
  simp [scaleLinear, h, interpolateNumber]

lemma scaleLinear_right {d0 d1 : ℚ} (r0 r1 : ℚ) (h : d1 - d0 ≠ 0) :
    scaleLinear d0 d1 r0 r1 d1 = r1 := by
  simp [scaleLinear, h, interpolateNumber, div_self h]

lemma scaleLinear_mono {d0 d1 r0 r1 : ℚ} (hd : d0 < d1) (hr : r0 ≤ r1)
    {v w : ℚ} (hvw : v ≤ w) :
    scaleLinear d0 d1 r0 r1 v ≤ scaleLinear d0 d1 r0 r1 w := by
  have hpos : (0 : ℚ) < d1 - d0 := sub_pos.mpr hd
  have hne : d1 - d0 ≠ 0 := ne_of_gt hpos
  have key : scaleLinear d0 d1 r0 r1 w - scaleLinear d0 d1 r0 r1 v =
      (w - v) / (d1 - d0) * (r1 - r0) := by
    simp only [scaleLinear, hne, if_false, interpolateNumber]
    field_simp
    ring
  have hnn : 0 ≤ (w - v) / (d1 - d0) * (r1 - r0) :=
    mul_nonneg (div_nonneg (by linarith) (le_of_lt hpos)) (by linarith)
  linarith [key, hnn]

/-- Claim C1: for the linear scales, scale(inMin) = outMin and
scale(inMax) = outMax exactly, and the scale is monotone non-decreasing on a
non-degenerate increasing domain; concretely, for the node table with
betweenness values 0 and 10, the radius scale sends a to 8 and b to 25. -/
theorem scaleLinear_endpoints_monotone :
    (∀ d0 d1 r0 r1 : ℚ, d0 < d1 → r0 ≤ r1 →
      scaleLinear d0 d1 r0 r1 d0 = r0 ∧
      scaleLinear d0 d1 r0 r1 d1 = r1 ∧
      ∀ v w : ℚ, v ≤ w →
        scaleLinear d0 d1 r0 r1 v ≤ scaleLinear d0 d1 r0 r1 w) ∧
    betweennessScaleOf [devA, devB] devA.betweenness = 8 ∧
    betweennessScaleOf [devA, devB] devB.betweenness = 25 := by
  refine ⟨fun d0 d1 r0 r1 hd hr => ?_, ?_, ?_⟩
  · have hne : d1 - d0 ≠ 0 := ne_of_gt (sub_pos.mpr hd)
    exact ⟨scaleLinear_left r0 r1 hne, scaleLinear_right r0 r1 hne,
      fun v w hvw => scaleLinear_mono hd hr hvw⟩
  · show scaleLinear 0 (betweennessDomainMax [devA, devB]) 8 25 0 = 8
    norm_num [betweennessDomainMax, d3Max, devA, devB, List.max?,
      scaleLinear, interpolateNumber]
  · show scaleLinear 0 (betweennessDomainMax [devA, devB]) 8 25 10 = 25
    norm_num [betweennessDomainMax, d3Max, devA, devB, List.max?,
      scaleLinear, interpolateNumber]

/-- Witness for C1 at the concrete radius scale with domain [0, 10]:
the hypotheses 0 < 10 and 8 ≤ 25 hold and the endpoints map exactly. -/
theorem scaleLinear_endpoints_monotone_witness :
    scaleLinear 0 10 8 25 0 = 8 ∧ scaleLinear 0 10 8 25 10 = 25 ∧
    scaleLinear 0 10 8 25 3 ≤ scaleLinear 0 10 8 25 7 := by
  obtain ⟨hmain, -, -⟩ := scaleLinear_endpoints_monotone
  obtain ⟨h1, h2, h3⟩ := hmain 0 10 8 25 (by norm_num) (by norm_num)
  exact ⟨h1, h2, h3 3 7 (by norm_num)⟩

/-- Claim C2 counterexample: on the degenerate domain [0, 0] (all
betweenness values 0) the radius scale does not return outMin = 8; d3's
normalizer degenerates to the constant 1/2, so the scale returns the
midpoint 33/2 of the range [8, 25] at every input, in particular at 0. -/
theorem scaleLinear_degenerate_counterexample :
    scaleLinear 0 0 8 25 0 = 33 / 2 ∧ (33 : ℚ) / 2 ≠ 8 := by
  constructor
  · norm_num [scaleLinear, interpolateNumber]
  · norm_num

/-- Claim C2 amended: when the input domain is degenerate (inMax = inMin,
including the all-zero betweenness case), the scale is total (never raises)
and returns the constant midpoint (outMin + outMax) / 2 of the output range
for every input: 33/2 for the radius scale [8, 25] and 5/2 for the width
scale [1, 4]. -/
theorem scaleLinear_degenerate_midpoint :
    (∀ d r0 r1 x : ℚ, scaleLinear d d r0 r1 x = (r0 + r1) / 2) ∧
    scaleLinear 0 0 8 25 5 = 33 / 2 ∧ scaleLinear 1 1 1 4 7 = 5 / 2 := by
  refine ⟨fun d r0 r1 x => ?_, ?_, ?_⟩
  · simp [scaleLinear, interpolateNumber]
    ring
  · norm_num [scaleLinear, interpolateNumber]
  · norm_num [scaleLinear, interpolateNumber]

/-- Arrowhead bucket for an edge weight, from the marker-end attribute
(network-viz-directed.tsx lines 100-102, NetworkVisualization.tsx lines
153-155): weight <= 2 gives small, else weight <= 4 gives medium, else
large.  The bucket depends on the weight only, not on edgeWeightScaleOf. -/
def arrowMarker (weight : ℚ) : String :=
  if weight ≤ 2 then "small" else if weight ≤ 4 then "medium" else "large"

/-- Full marker-end url string built from the bucket. -/
def markerEnd (weight : ℚ) : String :=
  "url(#arrow-" ++ arrowMarker weight ++ ")"

/-- Claim C4: the arrowhead selection is a total 3-way classification of
the weight with inclusive lower buckets, independent of the continuous
stroke-width scale (arrowMarker takes only the weight as input). -/
theorem arrowMarker_buckets :
    ∀ w : ℚ,
      (w ≤ 2 → arrowMarker w = "small") ∧
      (2 < w → w ≤ 4 → arrowMarker w = "medium") ∧
      (4 < w → arrowMarker w = "large") ∧
      (arrowMarker w = "small" ∨ arrowMarker w = "medium" ∨
        arrowMarker w = "large") := by
  intro w
  refine ⟨fun h => ?_, fun h1 h2 => ?_, fun h => ?_, ?_⟩
  · simp [arrowMarker, h]
  · simp [arrowMarker, not_le.mpr h1, h2]
  · simp [arrowMarker, not_le.mpr (by linarith : (2 : ℚ) < w),
      not_le.mpr h]
  · by_cases h1 : w ≤ 2
    · simp [arrowMarker, h1]
    · by_cases h2 : w ≤ 4 <;> simp [arrowMarker, h1, h2]

/-- Witness for C4 at the boundary weights 2, 3 and 5. -/
theorem arrowMarker_buckets_witness :
    arrowMarker 2 = "small" ∧ arrowMarker 3 = "medium" ∧
    arrowMarker 5 = "large" :=
  ⟨(arrowMarker_buckets 2).1 (by norm_num),
   (arrowMarker_buckets 3).2.1 (by norm_num) (by norm_num),
   (arrowMarker_buckets 5).2.2.1 (by norm_num)⟩

/-- Static country-to-code table from getCountryCode
(network-viz-directed.tsx lines 226-243). -/
def countryMap : List (String × String) :=
  [("USA", "US"), ("United States", "US"), ("United Kingdom", "GB"),
   ("Germany", "DE"), ("France", "FR"), ("Spain", "ES"), ("Italy", "IT"),
   ("Netherlands", "NL"), ("Belgium", "BE"), ("Switzerland", "CH"),
   ("Austria", "AT"), ("Canada", "CA"), ("Australia", "AU"),
   ("India", "IN"), ("Unknown", "UN")]

/-- Value a JavaScript bracket read can yield on the string-valued
countryMap object literal: an own string property, a member inherited
from Object.prototype (a function, or for the proto accessor the
prototype object itself, in either case a truthy non-string value), or
undefined when the name is found nowhere on the chain. -/
inductive JSValue where
  | str (s : String)
  | protoMember (name : String)
  | undefined
deriving DecidableEq, Repr

/-- Member names every plain object literal inherits from
Object.prototype; bracket access finds these even though they are not
own properties of countryMap. -/
def objectPrototypeMembers : List String :=
  ["constructor", "hasOwnProperty", "isPrototypeOf",
   "propertyIsEnumerable", "toLocaleString", "toString", "valueOf",
   "__proto__", "__defineGetter__", "__defineSetter__",
   "__lookupGetter__", "__lookupSetter__"]

/-- Bracket property read countryMap[country]: an own entry yields its
string value, otherwise a name inherited from Object.prototype yields
that member, otherwise undefined. -/
def getProp (own : List (String × String)) (key : String) : JSValue :=
  match own.lookup key with
  | some v => JSValue.str v
  | none =>
    if key ∈ objectPrototypeMembers then JSValue.protoMember key
    else JSValue.undefined

/-- JavaScript truthiness of such a value: the empty string and
undefined are falsy, every other string and every inherited member is
truthy. -/
def jsTruthy : JSValue → Bool
  | JSValue.str s => s ≠ ""
  | JSValue.protoMember _ => true
  | JSValue.undefined => false

/-- Country-code lookup countryMap[country] || 'UN'
(network-viz-directed.tsx line 244): the fallback replaces only falsy
reads, so an inherited Object.prototype member passes through
untouched. -/
def getCountryCode (country : String) : JSValue :=
  let v := getProp countryMap country
  if jsTruthy v then v else JSValue.str "UN"

/-- Country used for the flag image href: the source substitutes the
alias USA for the literal name United States before calling
getCountryCode (network-viz-directed.tsx line 125). -/
def flagCountry (country : String) : String :=
  if country = "United States" then "USA" else country

/-- Value whose lowercasing is interpolated into the flag url for a
node's country field (network-viz-directed.tsx lines 124-127). -/
def flagCode (country : String) : JSValue :=
  getCountryCode (flagCountry country)

/-- Lowercasing call of line 126, getCountryCode(country).toLowerCase():
defined on strings, a TypeError on a function or object value. -/
def toLowerCaseJS : JSValue → Except String String
  | JSValue.str s => Except.ok s.toLower
  | _ => Except.error "TypeError: not a function"

/-- Claim C9 counterexample: the name toString is not in the static
table, yet the lookup does not return UN: the bracket read finds the
inherited Object.prototype method, which is truthy, so the fallback
never fires and the non-string result makes the call site's
toLowerCase() throw. -/
theorem getCountryCode_proto_counterexample :
    countryMap.lookup "toString" = none ∧
    getCountryCode "toString" = JSValue.protoMember "toString" ∧
    JSValue.protoMember "toString" ≠ JSValue.str "UN" ∧
    toLowerCaseJS (flagCode "toString") =
      Except.error "TypeError: not a function" :=
  ⟨by decide, by decide, by decide, rfl⟩

/-- Claim C9 amended: for every country name neither in the static table
nor an Object.prototype member name (such as Tuvalu) the lookup returns
the unknown code UN, neither empty nor a throw; for an unmapped name
that is an inherited member name the lookup returns that truthy
non-string member and the call site's toLowerCase() then throws a
TypeError; and the input United States is replaced by the alias USA
before the lookup is performed. -/
theorem getCountryCode_proto_fallback :
    (∀ c : String, countryMap.lookup c = none →
      c ∉ objectPrototypeMembers → getCountryCode c = JSValue.str "UN") ∧
    (∀ c : String, countryMap.lookup c = none →
      c ∈ objectPrototypeMembers →
      getCountryCode c = JSValue.protoMember c ∧
      toLowerCaseJS (getCountryCode c) =
        Except.error "TypeError: not a function") ∧
    getCountryCode "Tuvalu" = JSValue.str "UN" ∧
    getCountryCode "Tuvalu" ≠ JSValue.str "" ∧
    flagCountry "United States" = "USA" ∧
    flagCode "United States" = getCountryCode "USA" := by
  refine ⟨fun c hc hp => ?_, fun c hc hp => ⟨?_, ?_⟩, by decide,
    by decide, rfl, rfl⟩
  · simp [getCountryCode, getProp, hc, hp, jsTruthy]
  · simp [getCountryCode, getProp, hc, hp, jsTruthy]
  · simp [getCountryCode, getProp, hc, hp, jsTruthy, toLowerCaseJS]

/-- Witness for C9 amended: Tuvalu is unmapped and no prototype member,
so it resolves to UN; valueOf is unmapped but inherited, so the lookup
returns the member instead. -/
theorem getCountryCode_proto_fallback_witness :
    getCountryCode "Tuvalu" = JSValue.str "UN" ∧
    getCountryCode "valueOf" = JSValue.protoMember "valueOf" :=
  ⟨getCountryCode_proto_fallback.1 "Tuvalu" (by decide) (by decide),
   (getCountryCode_proto_fallback.2.1 "valueOf" (by decide)
     (by decide)).1⟩

/-- Per-id node index, as built by d3-force forceLink initialization:
new Map(nodes.map(d => [id(d), d])) with the accessor d => d.developer_id
(the forceLink id accessor at network-viz-directed.tsx line 85); a later
duplicate id overwrites an earlier one, hence the last match. -/
def nodeById (nodes : List Developer) (nodeId : String) : Option Developer :=
  (nodes.filter (fun n => n.developer_id = nodeId)).getLast?

/-- Lookup of one link endpoint, as in d3-force link.js find: a missing id
throws the error string given below; modelled as Except. -/
def findNode (nodes : List Developer) (nodeId : String) :
    Except String Developer :=
  match nodeById nodes nodeId with
  | some n => Except.ok n
  | none => Except.error ("node not found: " ++ nodeId)

/-- Edge after endpoint resolution. -/
structure ResolvedLink where
  source : Developer
  target : Developer
  weight : ℚ
deriving DecidableEq, Repr

/-- Resolution of one link: source endpoint first, then target, as in the
d3-force link.js loop body. -/
def resolveOne (nodes : List Developer) (l : RawLink) :
    Except String ResolvedLink := do
  let s ← findNode nodes l.source
  let t ← findNode nodes l.target
  pure (ResolvedLink.mk s t l.weight)

/-- Endpoint resolution pass run by d3.forceLink(data.links).id(...) at
simulation setup (network-viz-directed.tsx lines 83-89): every link's
string endpoints are replaced by node references, in order, and the first
missing id aborts the whole pass with its node-not-found error.  The
source wraps no try/catch around the simulation setup, so an error here
propagates out of the effect uncaught. -/
def resolveLinks (nodes : List Developer) :
    List RawLink → Except String (List ResolvedLink)
  | [] => Except.ok []
  | l :: ls => do
    let r ← resolveOne nodes l
    let rs ← resolveLinks nodes ls
    pure (r :: rs)

lemma resolveOne_source_missing {nodes : List Developer} {l : RawLink}
    (h : nodeById nodes l.source = none) :
    resolveOne nodes l = Except.error ("node not found: " ++ l.source) := by
  simp [resolveOne, findNode, h, Bind.bind, Except.bind]

lemma resolveOne_target_missing {nodes : List Developer} {l : RawLink}
    {s : Developer} (hs : nodeById nodes l.source = some s)
    (h : nodeById nodes l.target = none) :
    resolveOne nodes l = Except.error ("node not found: " ++ l.target) := by
  simp [resolveOne, findNode, hs, h, Bind.bind, Except.bind]

lemma resolveLinks_cons_error {nodes : List Developer} {l : RawLink}
    {ls : List RawLink} {e : String}
    (h : resolveOne nodes l = Except.error e) :
    resolveLinks nodes (l :: ls) = Except.error e := by
  simp [resolveLinks, h, Bind.bind, Except.bind]

lemma resolveLinks_cons_ok {nodes : List Developer} {l : RawLink}
    {ls : List RawLink} {r : ResolvedLink} {e : String}
    (h : resolveOne nodes l = Except.ok r)
    (hls : resolveLinks nodes ls = Except.error e) :
    resolveLinks nodes (l :: ls) = Except.error e := by
  simp [resolveLinks, h, hls, Bind.bind, Except.bind]

lemma resolveOne_error_shape {nodes : List Developer} {l : RawLink}
    {e : String} (h : resolveOne nodes l = Except.error e) :
    ∃ badId, nodeById nodes badId = none ∧
      e = "node not found: " ++ badId := by
  cases hs : nodeById nodes l.source with
  | none =>
    rw [resolveOne_source_missing hs] at h
    exact ⟨l.source, hs, (Except.error.inj h).symm⟩
  | some s =>
    cases ht : nodeById nodes l.target with
    | none =>
      rw [resolveOne_target_missing hs ht] at h
      exact ⟨l.target, ht, (Except.error.inj h).symm⟩
    | some t =>
      exfalso
      have : resolveOne nodes l = Except.ok (ResolvedLink.mk s t l.weight) := by
        simp [resolveOne, findNode, hs, ht, Bind.bind, Except.bind,
          Pure.pure, Except.pure]
      rw [this] at h
      exact Except.noConfusion h

/-- Claim C3 counterexample: with node table [a] and the single edge from
a to the absent id z, d3's link resolution neither drops the edge nor
continues: it aborts with the node-not-found error, which nothing in the
component catches, so the layout setup crashes rather than rendering with
the edge removed. -/
theorem resolveLinks_missing_node_counterexample :
    resolveLinks [devA] [RawLink.mk "a" "z" 1] =
      Except.error "node not found: z" ∧
    resolveLinks [devA] [RawLink.mk "a" "z" 1] ≠ Except.ok [] := by
  have h : resolveLinks [devA] [RawLink.mk "a" "z" 1] =
      Except.error "node not found: z" := by rfl
  exact ⟨h, fun hok => Except.noConfusion (h ▸ hok)⟩

/-- Claim C3 amended: an edge whose source or target id resolves to no
node makes the forceLink resolution pass fail fast with a node-not-found
error naming some unresolvable id; no resolved link list is ever produced
(so nothing is rendered with undefined coordinates and the edge is not
silently dropped), but the error is uncaught, so layout setup does crash. -/
theorem resolveLinks_missing_node_errors :
    ∀ (nodes : List Developer) (links : List RawLink),
      (∃ l ∈ links,
        nodeById nodes l.source = none ∨ nodeById nodes l.target = none) →
      (∃ badId, nodeById nodes badId = none ∧
        resolveLinks nodes links =
          Except.error ("node not found: " ++ badId)) ∧
      ∀ rs : List ResolvedLink, resolveLinks nodes links ≠ Except.ok rs := by
  intro nodes links hbad
  have main : ∃ badId, nodeById nodes badId = none ∧
      resolveLinks nodes links =
        Except.error ("node not found: " ++ badId) := by
    induction links with
    | nil => simp at hbad
    | cons l ls ih =>
      cases hr : resolveOne nodes l with
      | error e =>
        rcases resolveOne_error_shape hr with ⟨badId, hnone, he⟩
        subst he
        exact ⟨badId, hnone, resolveLinks_cons_error hr⟩
      | ok r =>
        rcases hbad with ⟨l', hl', hmiss⟩
        rcases List.mem_cons.mp hl' with hhead | htail
        · exfalso
          subst hhead
          rcases hmiss with hsrc | htgt
          · rw [resolveOne_source_missing hsrc] at hr
            exact Except.noConfusion hr
          · cases hsrc : nodeById nodes l'.source with
            | none =>
              rw [resolveOne_source_missing hsrc] at hr
              exact Except.noConfusion hr
            | some s =>
              rw [resolveOne_target_missing hsrc htgt] at hr
              exact Except.noConfusion hr
        · rcases ih ⟨l', htail, hmiss⟩ with ⟨badId, hnone, herr⟩
          exact ⟨badId, hnone, resolveLinks_cons_ok hr herr⟩
  rcases main with ⟨badId, hnone, herr⟩
  refine ⟨⟨badId, hnone, herr⟩, fun rs hok => ?_⟩
  rw [herr] at hok
  exact Except.noConfusion hok

/-- Witness for C3 amended: concretely, with node table [a] and one edge
a to z, the id z is unresolvable and the pass produces no link list. -/
theorem resolveLinks_missing_node_errors_witness :
    nodeById [devA] "z" = none ∧
    resolveLinks [devA] [RawLink.mk "a" "z" 1] ≠ Except.ok [] :=
  ⟨rfl,
   (resolveLinks_missing_node_errors [devA] [RawLink.mk "a" "z" 1]
     ⟨RawLink.mk "a" "z" 1, List.mem_singleton.mpr rfl, Or.inr rfl⟩).2 []⟩

/-- Node as read by the tick handler: id, betweenness and the current
simulation position. -/
structure PosNode where
  developer_id : String
  betweenness : ℚ
  x : ℝ
  y : ℝ

/-- Geometry of the path string written to the d attribute of a link on
each tick.  selfLoop x y r stands for the string
M x-r,y a r,r 0 1,1 2r,0 a r,r 0 1,1 -2r,0 (a closed circle of radius r
centred on the node position); arc x1 y1 rr x2 y2 stands for
M x1,y1 A rr,rr 0 0,1 x2,y2 (a circular arc of radius rr between the two
endpoint positions). -/
inductive PathD where
  | selfLoop (x y : ℝ) (r : ℝ)
  | arc (x1 y1 : ℝ) (rr : ℝ) (x2 y2 : ℝ)

/-- Radius-from-betweenness scale as a function of the maximum observed
betweenness, the form in scope inside the tick handler. -/
def betweennessScaleMax (maxB b : ℚ) : ℚ := scaleLinear 0 maxB 8 25 b

/-- Link path computation from the tick handler
(network-viz-directed.tsx lines 182-199, NetworkVisualization.tsx lines
236-251): dx, dy and dr = sqrt(dx^2 + dy^2) * 2 are computed from the
endpoint positions; when the two developer ids coincide the emitted path
is the self-loop of the source node's rendered radius anchored at its own
position, otherwise the arc of radius dr between the two positions.
Marked noncomputable only because the exact real square root is; every
other definition in this file is executable. -/
noncomputable def linkPathD (maxB : ℚ) (s t : PosNode) : PathD :=
  let dx := t.x - s.x
  let dy := t.y - s.y
  let dr := Real.sqrt (dx * dx + dy * dy) * 2
  if s.developer_id = t.developer_id then
    PathD.selfLoop s.x s.y ((betweennessScaleMax maxB s.betweenness : ℚ) : ℝ)
  else
    PathD.arc s.x s.y dr t.x t.y

lemma betweennessScaleMax_pos {maxB b : ℚ} (hm : 0 ≤ maxB) (hb : 0 ≤ b) :
    0 < betweennessScaleMax maxB b := by
  unfold betweennessScaleMax
  rcases eq_or_lt_of_le hm with hz | hpos
  · rw [← hz]
    norm_num [scaleLinear, interpolateNumber]
  · have hne : maxB - 0 ≠ 0 := by simpa using ne_of_gt hpos
    have ht : 0 ≤ (b - 0) / (maxB - 0) :=
      div_nonneg (by linarith) (by linarith)
    simp only [scaleLinear, hne, if_false, interpolateNumber]
    nlinarith

/-- Claim C5: a self-edge (equal endpoint ids) always renders as the
closed loop anchored at the node's own position with the node's rendered
radius, which is strictly positive for the scales in use (so never a
zero-length path), and an edge with distinct endpoint ids renders as the
arc whose radius is twice the Euclidean distance between the endpoint
positions. -/
theorem linkPathD_geometry :
    ∀ (maxB : ℚ) (s t : PosNode),
      (s.developer_id = t.developer_id →
        linkPathD maxB s t =
          PathD.selfLoop s.x s.y
            ((betweennessScaleMax maxB s.betweenness : ℚ) : ℝ)) ∧
      (0 ≤ maxB → 0 ≤ s.betweenness →
        0 < betweennessScaleMax maxB s.betweenness) ∧
      (s.developer_id ≠ t.developer_id →
        linkPathD maxB s t =
          PathD.arc s.x s.y
            (2 * Real.sqrt ((t.x - s.x) * (t.x - s.x) +
              (t.y - s.y) * (t.y - s.y))) t.x t.y) := by
  intro maxB s t
  refine ⟨fun h => ?_, fun hm hb => betweennessScaleMax_pos hm hb,
    fun h => ?_⟩
  · simp [linkPathD, h]
  · simp only [linkPathD, h, if_false]
    rw [mul_comm]

/-- Witness for C5: a self-edge on node b of the demo table with maximum
betweenness 10 renders as the loop of radius 25 at position (3, 4), and
the edge from a at (0, 0) to b at (3, 4) renders as the arc of radius
2 * sqrt 25. -/
theorem linkPathD_geometry_witness :
    linkPathD 10 (PosNode.mk "b" 10 3 4) (PosNode.mk "b" 10 3 4) =
      PathD.selfLoop 3 4 ((betweennessScaleMax 10 10 : ℚ) : ℝ) ∧
    0 < betweennessScaleMax 10 10 ∧
    linkPathD 10 (PosNode.mk "a" 0 0 0) (PosNode.mk "b" 10 3 4) =
      PathD.arc 0 0 (2 * Real.sqrt ((3 - 0) * (3 - 0) + (4 - 0) * (4 - 0)))
        3 4 :=
  ⟨(linkPathD_geometry 10 (PosNode.mk "b" 10 3 4)
      (PosNode.mk "b" 10 3 4)).1 rfl,
   (linkPathD_geometry 10 (PosNode.mk "b" 10 3 4)
      (PosNode.mk "b" 10 3 4)).2.1 (by norm_num) (by norm_num),
   (linkPathD_geometry 10 (PosNode.mk "a" 0 0 0)
      (PosNode.mk "b" 10 3 4)).2.2 (by simp)⟩

/-- Simulation control state touched by the drag handlers: the target
energy set by simulation.alphaTarget(v) and whether .restart() has been
invoked to resume ticking. -/
structure SimCtl where
  alphaTarget : ℚ
  running : Bool
deriving DecidableEq, Repr

/-- Per-node mutable simulation state read and written by the drag
handlers and the tick integrator: position, velocity, and the optional
pinned position fx/fy (none models the null the handlers assign). -/
structure NodeState where
  x : ℝ
  y : ℝ
  vx : ℝ
  vy : ℝ
  fx : Option ℝ
  fy : Option ℝ

/-- dragstarted handler (network-viz-directed.tsx lines 205-209): when
event.active is falsy it raises the target energy to 0.3 and restarts the
simulation; it then unconditionally pins the node at its current
position. -/
def dragstarted (active : Bool) (sim : SimCtl) (d : NodeState) :
    SimCtl × NodeState :=
  (if active then sim else { sim with alphaTarget := 3 / 10, running := true },
   { d with fx := some d.x, fy := some d.y })

/-- dragged handler (lines 211-214): unconditionally moves the pin to the
pointer position. -/
def dragged (px py : ℝ) (d : NodeState) : NodeState :=
  { d with fx := some px, fy := some py }

/-- dragended handler (lines 216-220): when event.active is falsy it
resets the target energy to 0, then unconditionally clears the pin. -/
def dragended (active : Bool) (sim : SimCtl) (d : NodeState) :
    SimCtl × NodeState :=
  (if active then sim else { sim with alphaTarget := 0 },
   { d with fx := none, fy := none })

/-- Per-node position update of one simulation tick, as in d3-force
simulation.js step: an unpinned coordinate advances by the decayed
velocity, a pinned coordinate snaps to the pin and zeroes its
velocity. -/
def tickIntegrate (decay : ℝ) (d : NodeState) : NodeState :=
  let xv : ℝ × ℝ := match d.fx with
    | none => (d.x + d.vx * decay, d.vx * decay)
    | some px => (px, 0)
  let yv : ℝ × ℝ := match d.fy with
    | none => (d.y + d.vy * decay, d.vy * decay)
    | some py => (py, 0)
  { d with x := xv.1, vx := xv.2, y := yv.1, vy := yv.2 }

/-- Claim C6: the drag lifecycle sets and clears the pin exactly as
stated: drag-start pins at the node's current position, each drag-move
moves the pin to the pointer position, drag-end clears both pin
coordinates to null, and after release a tick moves the node freely by
its decayed velocity (the pin no longer holds it). -/
theorem drag_lifecycle_pin :
    ∀ (active : Bool) (sim : SimCtl) (d : NodeState) (px py decay : ℝ),
      (dragstarted active sim d).2.fx = some d.x ∧
      (dragstarted active sim d).2.fy = some d.y ∧
      (dragged px py d).fx = some px ∧
      (dragged px py d).fy = some py ∧
      (dragended active sim d).2.fx = none ∧
      (dragended active sim d).2.fy = none ∧
      tickIntegrate decay (dragended active sim d).2 =
        { x := d.x + d.vx * decay, y := d.y + d.vy * decay,
          vx := d.vx * decay, vy := d.vy * decay,
          fx := none, fy := none } := by
  intro active sim d px py decay
  refine ⟨rfl, rfl, rfl, rfl, rfl, rfl, ?_⟩
  simp [dragended, tickIntegrate]

/-- Claim C10: re-heating is guarded by gesture activity.  When another
gesture is already active (event.active truthy) dragstarted leaves the
simulation control state untouched, otherwise it sets alphaTarget 0.3 and
restarts; dragended resets alphaTarget to 0 exactly when this was the
last active gesture; and the pin writes of both handlers are the same
whether or not other gestures are active. -/
theorem drag_reheat_guard :
    ∀ (sim : SimCtl) (d : NodeState),
      (dragstarted true sim d).1 = sim ∧
      (dragstarted false sim d).1 =
        { sim with alphaTarget := 3 / 10, running := true } ∧
      (dragended true sim d).1 = sim ∧
      (dragended false sim d).1 = { sim with alphaTarget := 0 } ∧
      ∀ active : Bool,
        (dragstarted active sim d).2 =
          { d with fx := some d.x, fy := some d.y } ∧
        (dragended active sim d).2 = { d with fx := none, fy := none } := by
  intro sim d
  exact ⟨rfl, rfl, rfl, rfl, fun active => ⟨rfl, rfl⟩⟩

/-- Value of the JavaScript Number(string) conversion: a finite value, a
signed infinity, or NaN. -/
inductive JSNum where
  | val (q : ℚ)
  | posInf
  | negInf
  | nan
deriving DecidableEq, Repr

/-- Truth of the isNaN test applied to a converted value. -/
def JSNum.isNaN : JSNum → Bool
  | JSNum.nan => true
  | _ => false

/-- Whitespace recognised by the JavaScript trim and Number conversions
(the ASCII part; the unicode spaces never occur in the CSV data). -/
def jsWhitespaceChar (c : Char) : Bool :=
  c = ' ' ∨ c = '\t' ∨ c = '\n' ∨ c = '\r' ∨ c = '\x0b' ∨ c = '\x0c'

/-- Leading and trailing whitespace removal on a character list. -/
def trimChars (cs : List Char) : List Char :=
  ((cs.dropWhile jsWhitespaceChar).reverse.dropWhile jsWhitespaceChar).reverse

/-- String.prototype.trim as used on headers and text cells. -/
def jsTrim (s : String) : String := String.mk (trimChars s.toList)

/-- String.prototype.split on a single separator character: every
occurrence separates, adjacent separators give empty fields, the empty
input gives one empty field. -/
def splitOnChar (sep : Char) : List Char → List (List Char)
  | [] => [[]]
  | c :: rest =>
    let r := splitOnChar sep rest
    if c = sep then [] :: r
    else
      match r with
      | [] => [[c]]
      | g :: gs => (c :: g) :: gs

/-- Value of a decimal digit string read most significant first. -/
def digitsToNat (ds : List Char) : ℕ :=
  ds.foldl (fun a c => a * 10 + (c.toNat - 48)) 0

/-- Value of one digit in the given radix, none when the character is not
a digit of that radix. -/
def radixDigit (radix : ℕ) (c : Char) : Option ℕ :=
  let v : Option ℕ :=
    if '0' ≤ c ∧ c ≤ '9' then some (c.toNat - 48)
    else if 'a' ≤ c ∧ c ≤ 'f' then some (c.toNat - 87)
    else if 'A' ≤ c ∧ c ≤ 'F' then some (c.toNat - 55)
    else none
  v.bind (fun d => if d < radix then some d else none)

/-- Value of a non-empty digit string in the given radix, none when any
character is out of range, as for the 0x, 0o and 0b literal bodies. -/
def parseRadix (radix : ℕ) (cs : List Char) : Option ℚ :=
  if cs.isEmpty then none
  else (cs.foldl
    (fun acc c => acc.bind
      (fun a => (radixDigit radix c).map (fun d => a * radix + d)))
    (some (0 : ℕ))).map (fun n => (n : ℚ))

/-- Exponent part of a decimal literal: the empty remainder means
exponent 0, otherwise e or E with an optional sign and at least one
digit consuming the whole remainder. -/
def parseExpPart : List Char → Option ℤ
  | [] => some 0
  | c :: rest =>
    if c = 'e' ∨ c = 'E' then
      let sr : ℤ × List Char :=
        match rest with
        | '+' :: r => (1, r)
        | '-' :: r => (-1, r)
        | r => (1, r)
      let ds := sr.2.takeWhile Char.isDigit
      let rest3 := sr.2.dropWhile Char.isDigit
      if ds.isEmpty ∨ ¬ rest3.isEmpty then none
      else some (sr.1 * (digitsToNat ds : ℤ))
    else none

/-- Value of integer digits, fraction digits and exponent remainder,
none when both digit groups are empty or the exponent is malformed.  The
exact rational value of the literal, mantissa times ten to the exponent,
is written as one normalized fraction so that it evaluates by kernel
reduction. -/
def decValue (ip fp rest : List Char) : Option ℚ :=
  if ip.isEmpty ∧ fp.isEmpty then none
  else (parseExpPart rest).map
    (fun e =>
      mkRat
        (((digitsToNat ip * 10 ^ fp.length + digitsToNat fp) *
          10 ^ e.toNat : ℕ) : ℤ)
        (10 ^ fp.length * 10 ^ (-e).toNat))

/-- Unsigned decimal literal body: digits, an optional dot with further
digits, and an optional exponent part. -/
def parseDecBody (cs : List Char) : Option ℚ :=
  let ip := cs.takeWhile Char.isDigit
  let r1 := cs.dropWhile Char.isDigit
  match r1 with
  | '.' :: rest =>
    decValue ip (rest.takeWhile Char.isDigit) (rest.dropWhile Char.isDigit)
  | _ => decValue ip [] r1

/-- Signed decimal or Infinity literal, the StrDecimalLiteral cases of the
JavaScript string-to-number grammar. -/
def parseSignedDec (cs : List Char) : JSNum :=
  let sb : Bool × List Char :=
    match cs with
    | '-' :: r => (true, r)
    | '+' :: r => (false, r)
    | r => (false, r)
  if sb.2 = "Infinity".toList then
    if sb.1 then JSNum.negInf else JSNum.posInf
  else
    match parseDecBody sb.2 with
    | some q => JSNum.val (if sb.1 then -q else q)
    | none => JSNum.nan

/-- Lift of a radix-literal result to a conversion value. -/
def jsOfOpt : Option ℚ → JSNum
  | some q => JSNum.val q
  | none => JSNum.nan

/-- JavaScript Number(string) conversion as invoked by the loader's cell
decoding (NetworkVisualization.tsx line 322, Number(values[i])): leading
and trailing whitespace is trimmed, the empty remainder converts to 0,
an unsigned 0x / 0o / 0b literal converts in its radix, and otherwise an
optionally signed decimal or Infinity literal is read; anything else is
NaN. -/
def jsNumber (s : String) : JSNum :=
  let cs := trimChars s.toList
  if cs.isEmpty then JSNum.val 0
  else
    match cs with
    | '0' :: c :: rest =>
      if c = 'x' ∨ c = 'X' then jsOfOpt (parseRadix 16 rest)
      else if c = 'o' ∨ c = 'O' then jsOfOpt (parseRadix 8 rest)
      else if c = 'b' ∨ c = 'B' then jsOfOpt (parseRadix 2 rest)
      else parseSignedDec cs
    | _ => parseSignedDec cs

/-- Decoded CSV cell: a number when Number() parsed it cleanly, otherwise
the trimmed text. -/
inductive CellValue where
  | num (n : JSNum)
  | str (s : String)
deriving DecidableEq, Repr

/-- Cell decoding of the hand-rolled parseCSV
(network-viz-directed.tsx lines 320-324): a falsy (empty or missing) cell
becomes null, a cell whose Number() conversion is NaN becomes its trimmed
text, and any other cell becomes its converted number. -/
def parseCell (v : String) : Option CellValue :=
  if v = "" then none
  else if (jsNumber v).isNaN then some (CellValue.str (jsTrim v))
  else some (CellValue.num (jsNumber v))

/-- Hand-rolled CSV parser of the typed component
(network-viz-directed.tsx lines 314-327): the first line supplies the
trimmed headers, every further line is split on commas and decoded per
cell against the headers by index, and rows whose cells are all null are
filtered out.  A record is the list of header-value pairs the reduce
builds, in header order. -/
def parseCSV (csv : String) : List (List (String × Option CellValue)) :=
  let lines := splitOnChar '\n' csv.toList
  let headers := splitOnChar ',' (lines.headD [])
  ((lines.drop 1).map (fun line =>
    let values := splitOnChar ',' line
    headers.enum.map (fun ih =>
      (String.mk (trimChars ih.2),
       parseCell (String.mk (values.getD ih.1 [])))))).filter
    (fun row => row.any (fun p => p.2.isSome))

/-- Claim C8: the loader parses a resource as a header-plus-rows table; a
non-empty cell is decoded as a number exactly when Number() parses it
cleanly (not NaN) and as its trimmed text otherwise; and every record the
parser emits has at least one non-null field, so blank rows (all cells
empty) are dropped.  A concrete table exercises all three cell shapes and
a trailing blank line. -/
theorem parseCSV_cell_decoding :
    (∀ v : String, v ≠ "" →
      ((jsNumber v).isNaN = false →
        parseCell v = some (CellValue.num (jsNumber v))) ∧
      ((jsNumber v).isNaN = true →
        parseCell v = some (CellValue.str (jsTrim v)))) ∧
    (∀ csv : String, ∀ row ∈ parseCSV csv, ∃ p ∈ row, p.2.isSome = true) ∧
    parseCSV "id,w\na, 3\nb,xy \n\n" =
      [[("id", some (CellValue.str "a")),
        ("w", some (CellValue.num (JSNum.val 3)))],
       [("id", some (CellValue.str "b")),
        ("w", some (CellValue.str "xy"))]] := by
  refine ⟨fun v hv => ⟨fun hn => ?_, fun hn => ?_⟩, fun csv row hrow => ?_,
    by decide⟩
  · simp [parseCell, hv, hn]
  · simp [parseCell, hv, hn]
  · simp only [parseCSV] at hrow
    have hp : row.any (fun p => p.2.isSome) = true :=
      (List.mem_filter.mp hrow).2
    simpa using List.any_eq_true.mp hp

/-- Witness for C8: the cell 42 decodes as the number 42 and the cell
consisting of hi with surrounding spaces decodes as the trimmed text. -/
theorem parseCSV_cell_decoding_witness :
    parseCell "42" = some (CellValue.num (jsNumber "42")) ∧
    parseCell " hi " = some (CellValue.str (jsTrim " hi ")) :=
  ⟨(parseCSV_cell_decoding.1 "42" (by decide)).1 (by decide),
   (parseCSV_cell_decoding.1 " hi " (by decide)).2 (by decide)⟩

/-- Component state relevant to load gating: the two parsed tables (null
until loading succeeds), the loading flag initialised to true, and the
console error log. -/
structure VizState where
  vizData :
    Option (List (List (String × Option CellValue)) ×
      List (List (String × Option CellValue)))
  loading : Bool
  errorLog : List String
deriving DecidableEq, Repr

/-- Mounted component state before loadData runs: no data, loading. -/
def initState : VizState := VizState.mk none true []

/-- loadData effect (network-viz-directed.tsx lines 298-340): the two
fetches are modelled as their results, ok with the body text or error
with the failure message.  When both succeed, both bodies are parsed,
setData stores them and setLoading(false) clears the loading flag; when
either fails the catch block logs the error with console.error and
neither setData nor setLoading is called. -/
def loadData (fa fb : Except String String) (s : VizState) : VizState :=
  match fa, fb with
  | Except.ok na, Except.ok nb =>
    { s with vizData := some (parseCSV na, parseCSV nb), loading := false }
  | Except.error e, _ =>
    { s with errorLog := s.errorLog ++ ["Error loading data: " ++ e] }
  | _, Except.error e =>
    { s with errorLog := s.errorLog ++ ["Error loading data: " ++ e] }

/-- Render gate of the drawing effect: it returns before building
anything unless data is set (line 343, if (!data || !svgRef.current)
return). -/
def rendersViz (s : VizState) : Bool := s.vizData.isSome

/-- Claim C7: when both fetches succeed the loading flag clears and the
parsed tables are stored; when either fetch fails the error is logged,
the loading flag stays set, no data is stored, and the drawing effect
never runs (no partial render).  loadData is the only code that touches
the flag, so a failed load leaves the component loading indefinitely. -/
theorem loadData_gating :
    ∀ (na nb e : String) (fa fb : Except String String),
      (loadData (Except.ok na) (Except.ok nb) initState).loading = false ∧
      (loadData (Except.ok na) (Except.ok nb) initState).vizData =
        some (parseCSV na, parseCSV nb) ∧
      (loadData (Except.error e) fb initState).loading = true ∧
      (loadData (Except.error e) fb initState).vizData = none ∧
      (loadData (Except.error e) fb initState).errorLog =
        ["Error loading data: " ++ e] ∧
      rendersViz (loadData (Except.error e) fb initState) = false ∧
      (loadData fa (Except.error e) initState).loading = true ∧
      (loadData fa (Except.error e) initState).vizData = none ∧
      (loadData fa (Except.error e) initState).errorLog ≠ [] ∧
      rendersViz (loadData fa (Except.error e) initState) = false := by
  intro na nb e fa fb
  refine ⟨rfl, rfl, ?_, ?_, ?_, ?_, ?_, ?_, ?_, ?_⟩
  all_goals cases fb <;> cases fa <;>
    simp [loadData, initState, rendersViz]
